import Mathlib

/-!
Verification development for the `online_payments` multi-tenant payment
gateway (TypeScript/Express).  The definitions below are a shallow
embedding of the webhook relay and credential-caching subsystem:

* `src/services/webhook-forwarder.service.ts` — callback store, outbound
  signing and delivery (`registerCallback`, `getCallback`,
  `removeCallback`, `forwardToUrl`, `forwardPaymentSuccess`,
  `forwardPaymentFailed`, `forwardPaymentRefunded`) and the OAuth2 token
  cache of `VivaWalletService.getAccessToken`.
* `src/routes/webhook.routes.ts` — inbound signature verification
  (`verifySignature`) and the per-merchant `POST /viva/:merchantKey`
  handler with its event dispatch.

External effects are made explicit: HTTP deliveries are recorded as a
trace of `OutboundRequest` values, the network token exchange and the
crypto primitives (HMAC-SHA256 hex digest, `JSON.stringify`) are
parameters, and wall-clock readings are arguments.  JavaScript truthiness
of optional strings/booleans is modelled by `truthyStr` / `truthyBool`.
-/

namespace OnlinePayments

/-- A JavaScript `string | number` value (order codes travel as either). -/
inductive StrNum where
  | str : String → StrNum
  | num : Int → StrNum
deriving DecidableEq

/-- `String(orderCode)`: the canonical map key used by the callback store. -/
def StrNum.toKey : StrNum → String
  | .str s => s
  | .num n => toString n

/-- Model of a `Record<string, unknown>` metadata bag. -/
abbrev Metadata := List (String × String)

/-- JavaScript truthiness of an optional string (`undefined` and `""` are falsy). -/
def truthyStr : Option String → Bool
  | some s => s != ""
  | none => false

/-- JavaScript truthiness of an optional boolean (`undefined` is falsy). -/
def truthyBool : Option Bool → Bool
  | some b => b
  | none => false

/-- `CallbackConfig` from `webhook-forwarder.service.ts`. -/
structure CallbackConfig where
  successUrl : Option String := none
  failureUrl : Option String := none
  webhookUrl : Option String := none
  secret : Option String := none
  includeRawPayload : Option Bool := none
  metadata : Option Metadata := none
deriving DecidableEq

/-- The module-level `callbackStore : Map<string, CallbackConfig>`,
modelled extensionally by its lookup function. -/
def CallbackStore := String → Option CallbackConfig

/-- The empty callback store (fresh process). -/
def emptyStore : CallbackStore := fun _ => none

/-- `callbackStore.get(k)`. -/
def storeGet (st : CallbackStore) (k : String) : Option CallbackConfig := st k

/-- `callbackStore.set(k, v)`. -/
def storeSet (st : CallbackStore) (k : String) (v : CallbackConfig) : CallbackStore :=
  fun k2 => if k2 = k then some v else st k2

/-- `callbackStore.delete(k)`. -/
def storeDelete (st : CallbackStore) (k : String) : CallbackStore :=
  fun k2 => if k2 = k then none else st k2

/-- `WebhookForwarderService.registerCallback`. -/
def registerCallback (st : CallbackStore) (orderCode : StrNum) (config : CallbackConfig) :
    CallbackStore :=
  storeSet st orderCode.toKey config

/-- `WebhookForwarderService.getCallback`. -/
def getCallback (st : CallbackStore) (orderCode : StrNum) : Option CallbackConfig :=
  storeGet st orderCode.toKey

/-- `WebhookForwarderService.removeCallback`. -/
def removeCallback (st : CallbackStore) (orderCode : StrNum) : CallbackStore :=
  storeDelete st orderCode.toKey

/-- `WebhookEventType` enum. -/
inductive WebhookEventType where
  | paymentSuccess
  | paymentFailed
  | paymentRefunded
  | paymentPending
  | orderCreated
  | orderCancelled
deriving DecidableEq

/-- The string value of each enum member. -/
def WebhookEventType.value : WebhookEventType → String
  | .paymentSuccess => "payment.success"
  | .paymentFailed => "payment.failed"
  | .paymentRefunded => "payment.refunded"
  | .paymentPending => "payment.pending"
  | .orderCreated => "order.created"
  | .orderCancelled => "order.cancelled"

/-- `EventData` of the inbound Viva `WebhookPayload` (the fields the
webhook route reads). -/
structure EventData where
  TransactionId : Option String := none
  OrderCode : Int
  Amount : Option Int := none
  StatusId : Option String := none
  CurrencyCode : Option String := none
  Email : Option String := none
  FullName : Option String := none
  Phone : Option String := none
  CardNumber : Option String := none
  CardTypeId : Option Int := none
  MerchantTrns : Option String := none
deriving DecidableEq

/-- Inbound Viva `WebhookPayload`. -/
structure WebhookPayload where
  EventTypeId : Int
  EventData : EventData
deriving DecidableEq

/-- `customer` sub-object of the forwarded payload data. -/
structure Customer where
  email : Option String := none
  fullName : Option String := none
  phone : Option String := none
deriving DecidableEq

/-- `card` sub-object of the forwarded payload data. -/
structure Card where
  lastFour : Option String := none
  brand : Option String := none
  expiryDate : Option String := none
deriving DecidableEq

/-- `WebhookForwardPayload['data']`. -/
structure PayloadData where
  transactionId : Option String := none
  orderCode : Option StrNum := none
  amount : Option Int := none
  currency : Option String := none
  status : Option String := none
  customer : Option Customer := none
  card : Option Card := none
  merchantReference : Option String := none
  metadata : Option Metadata := none
deriving DecidableEq

/-- `WebhookForwardPayload`: the JSON body of each outbound delivery. -/
structure WebhookForwardPayload where
  event : WebhookEventType
  timestamp : String
  data : PayloadData
  raw : Option WebhookPayload := none
deriving DecidableEq

/-- One outbound `axios.post` issued by `forwardToUrl`: destination,
headers, the serialized body string the signature is computed over, and
the structured body. -/
structure OutboundRequest where
  url : String
  eventHeader : String
  timestampHeader : String
  signature : Option String
  signature256 : Option String
  bodyString : String
  body : WebhookForwardPayload
deriving DecidableEq

/-- External collaborators of the forwarder and the webhook route:
`hmac secret message` models `crypto.createHmac('sha256', secret)
.update(message).digest('hex')` (a lowercase hex digest);
`stringify` / `stringifyWebhook` model `JSON.stringify` on the outbound
payload and the inbound request body; `deliverOk` models whether an
outbound `axios.post` resolves with a 2xx response. -/
structure Network where
  hmac : String → String → String
  stringify : WebhookForwardPayload → String
  stringifyWebhook : WebhookPayload → String
  deliverOk : OutboundRequest → Bool

/-- Process environment of the forwarder module:
`WEBHOOK_CALLBACK_URL` and `WEBHOOK_CALLBACK_SECRET` (both default `''`). -/
structure Env where
  defaultCallbackUrl : String := ""
  defaultCallbackSecret : String := ""

/-- `WebhookForwarderService.generateSignature`. -/
def generateSignature (net : Network) (payload : String) (secret : String) : String :=
  net.hmac secret payload

/-- `WebhookForwarderService.forwardToUrl`: builds the outbound request
(signing headers only when a truthy secret is supplied) and reports
whether delivery succeeded.  Failures are swallowed (`false`), never
thrown. -/
def forwardToUrl (net : Network) (url : String) (payload : WebhookForwardPayload)
    (secret : Option String) : OutboundRequest × Bool :=
  let payloadString := net.stringify payload
  let sigs : Option String × Option String :=
    match secret with
    | some s =>
      if s != "" then
        let signature := generateSignature net payloadString s
        (some signature, some ("sha256=" ++ signature))
      else (none, none)
    | none => (none, none)
  let req : OutboundRequest :=
    { url := url
      eventHeader := payload.event.value
      timestampHeader := payload.timestamp
      signature := sigs.1
      signature256 := sigs.2
      bodyString := payloadString
      body := payload }
  (req, net.deliverOk req)

/-- `if (maybeUrl) await this.forwardToUrl(maybeUrl, payload, secret)`:
the singleton trace of the guarded delivery. -/
def postIfTruthy (net : Network) (url : Option String) (payload : WebhookForwardPayload)
    (secret : Option String) : List OutboundRequest :=
  match url with
  | some u => if u != "" then [(forwardToUrl net u payload secret).1] else []
  | none => []

/-- `WebhookForwarderService.forwardPaymentSuccess`: returns the trace of
outbound requests and the callback store after the call (the entry is
removed unconditionally at the end). -/
def forwardPaymentSuccess (env : Env) (net : Network) (store : CallbackStore)
    (orderCode : StrNum) (data : PayloadData) (rawPayload : Option WebhookPayload)
    (now : String) : List OutboundRequest × CallbackStore :=
  let config := getCallback store orderCode
  let payload : WebhookForwardPayload :=
    { event := .paymentSuccess
      timestamp := now
      data := { data with orderCode := some orderCode
                          metadata := config.bind (fun c => c.metadata) }
      raw := if truthyBool (config.bind (fun c => c.includeRawPayload))
             then rawPayload else none }
  let fromSuccess := postIfTruthy net (config.bind (fun c => c.successUrl)) payload
      (config.bind (fun c => c.secret))
  let fromWebhook := postIfTruthy net (config.bind (fun c => c.webhookUrl)) payload
      (config.bind (fun c => c.secret))
  let fromDefault :=
    if env.defaultCallbackUrl != "" &&
        !(truthyStr (config.bind (fun c => c.successUrl))) &&
        !(truthyStr (config.bind (fun c => c.webhookUrl))) then
      [(forwardToUrl net env.defaultCallbackUrl payload (some env.defaultCallbackSecret)).1]
    else []
  (fromSuccess ++ fromWebhook ++ fromDefault, removeCallback store orderCode)

/-- `WebhookForwarderService.forwardPaymentFailed`: like the success path
but guarded by `failureUrl`, and the store entry is kept. -/
def forwardPaymentFailed (env : Env) (net : Network) (store : CallbackStore)
    (orderCode : StrNum) (data : PayloadData) (rawPayload : Option WebhookPayload)
    (now : String) : List OutboundRequest × CallbackStore :=
  let config := getCallback store orderCode
  let payload : WebhookForwardPayload :=
    { event := .paymentFailed
      timestamp := now
      data := { data with orderCode := some orderCode
                          metadata := config.bind (fun c => c.metadata) }
      raw := if truthyBool (config.bind (fun c => c.includeRawPayload))
             then rawPayload else none }
  let fromFailure := postIfTruthy net (config.bind (fun c => c.failureUrl)) payload
      (config.bind (fun c => c.secret))
  let fromWebhook := postIfTruthy net (config.bind (fun c => c.webhookUrl)) payload
      (config.bind (fun c => c.secret))
  let fromDefault :=
    if env.defaultCallbackUrl != "" &&
        !(truthyStr (config.bind (fun c => c.failureUrl))) &&
        !(truthyStr (config.bind (fun c => c.webhookUrl))) then
      [(forwardToUrl net env.defaultCallbackUrl payload (some env.defaultCallbackSecret)).1]
    else []
  (fromFailure ++ fromWebhook ++ fromDefault, store)

/-- `WebhookForwarderService.forwardPaymentRefunded`: delivers to the
registered `webhookUrl`, and additionally to the default callback URL
whenever one is configured (this branch is unconditional in the source,
unlike the success/failed paths). -/
def forwardPaymentRefunded (env : Env) (net : Network) (store : CallbackStore)
    (orderCode : StrNum) (data : PayloadData) (rawPayload : Option WebhookPayload)
    (now : String) : List OutboundRequest × CallbackStore :=
  let config := getCallback store orderCode
  let payload : WebhookForwardPayload :=
    { event := .paymentRefunded
      timestamp := now
      data := { data with orderCode := some orderCode
                          metadata := config.bind (fun c => c.metadata) }
      raw := if truthyBool (config.bind (fun c => c.includeRawPayload))
             then rawPayload else none }
  let fromWebhook := postIfTruthy net (config.bind (fun c => c.webhookUrl)) payload
      (config.bind (fun c => c.secret))
  let fromDefault :=
    if env.defaultCallbackUrl != "" then
      [(forwardToUrl net env.defaultCallbackUrl payload (some env.defaultCallbackSecret)).1]
    else []
  (fromWebhook ++ fromDefault, store)

/-- `MerchantConfig` from `merchant.config.ts` (the fields the webhook
POST route reads; the nested provider credentials are not consulted on
that path). -/
structure MerchantConfig where
  merchantKey : String
  apiKey : String
  webhookSecret : String
deriving DecidableEq

/-- `verifySignature` from `webhook.routes.ts`.  An empty secret skips
verification (`return true`).  Otherwise the expected digest is computed
and compared with `crypto.timingSafeEqual`, which throws (`Except.error`)
when the two UTF-8 buffers have different byte lengths and otherwise
returns bytewise equality. -/
def verifySignature (hmac : String → String → String)
    (payload : String) (signature : String) (secret : String) : Except Unit Bool :=
  if secret = "" then Except.ok true
  else
    let expectedSignature := hmac secret payload
    if signature.utf8ByteSize = expectedSignature.utf8ByteSize then
      Except.ok (signature = expectedSignature)
    else Except.error ()

/-- `CardNumber?.slice(-4)`: the last four characters (the whole string
when shorter). -/
def sliceLast4 (s : String) : String := s.drop (s.length - 4)

/-- `String(x)` for an optional JavaScript number. -/
def jsStringOfOptInt : Option Int → String
  | some n => toString n
  | none => "undefined"

/-- `handleTransactionPaymentCreated` (event 1796). -/
def handleTransactionPaymentCreated (env : Env) (net : Network) (store : CallbackStore)
    (payload : WebhookPayload) (now : String) : List OutboundRequest × CallbackStore :=
  let e := payload.EventData
  forwardPaymentSuccess env net store (StrNum.num e.OrderCode)
    { transactionId := e.TransactionId
      amount := e.Amount
      currency := e.CurrencyCode
      status := e.StatusId
      customer := some { email := e.Email, fullName := e.FullName, phone := e.Phone }
      card := some { lastFour := e.CardNumber.map sliceLast4
                     brand := some (jsStringOfOptInt e.CardTypeId)
                     expiryDate := none }
      merchantReference := e.MerchantTrns }
    (some payload) now

/-- `handleTransactionFailed` (event 1798). -/
def handleTransactionFailed (env : Env) (net : Network) (store : CallbackStore)
    (payload : WebhookPayload) (now : String) : List OutboundRequest × CallbackStore :=
  let e := payload.EventData
  forwardPaymentFailed env net store (StrNum.num e.OrderCode)
    { transactionId := e.TransactionId
      status := e.StatusId
      merchantReference := e.MerchantTrns }
    (some payload) now

/-- `handleTransactionReversalCreated` (event 1797). -/
def handleTransactionReversalCreated (env : Env) (net : Network) (store : CallbackStore)
    (payload : WebhookPayload) (now : String) : List OutboundRequest × CallbackStore :=
  let e := payload.EventData
  forwardPaymentRefunded env net store (StrNum.num e.OrderCode)
    { transactionId := e.TransactionId
      amount := e.Amount
      currency := e.CurrencyCode
      merchantReference := e.MerchantTrns }
    (some payload) now

/-- The `switch (payload.EventTypeId)` dispatch of the POST route:
1796 → success, 1798 → failed, 1797 → refunded, anything else is logged
only. -/
def dispatchEvent (env : Env) (net : Network) (payload : WebhookPayload)
    (store : CallbackStore) (now : String) : List OutboundRequest × CallbackStore :=
  if payload.EventTypeId = 1796 then handleTransactionPaymentCreated env net store payload now
  else if payload.EventTypeId = 1798 then handleTransactionFailed env net store payload now
  else if payload.EventTypeId = 1797 then handleTransactionReversalCreated env net store payload now
  else ([], store)

/-- The JSON response of the webhook POST route: HTTP status plus the
`received` and `error` fields of the body (each absent when not set). -/
structure JsonResponse where
  status : Nat
  received : Option Bool
  error : Option String
deriving DecidableEq

/-- Observable outcome of one webhook POST: response, outbound trace,
resulting callback store. -/
structure HandlerResult where
  response : JsonResponse
  requests : List OutboundRequest
  store : CallbackStore

/-- The `POST /viva/:merchantKey` route handler.  `resolveMerchant` models
`getMerchantByKey`; `signatureHeader` is the `viva-signature-256` request
header.  Verification only runs when the merchant has a truthy secret and
the header is truthy; a `timingSafeEqual` length exception lands in the
route's catch block, which still answers 200. -/
def webhookPostHandler (env : Env) (net : Network)
    (resolveMerchant : String → Option MerchantConfig)
    (merchantKey : String) (signatureHeader : Option String)
    (body : WebhookPayload) (store : CallbackStore) (now : String) : HandlerResult :=
  match resolveMerchant merchantKey with
  | none =>
    { response := { status := 404, received := none, error := some "Merchant not found" }
      requests := []
      store := store }
  | some merchant =>
    if merchant.webhookSecret != "" && truthyStr signatureHeader then
      let rawBody := net.stringifyWebhook body
      match verifySignature net.hmac rawBody (signatureHeader.getD "") merchant.webhookSecret with
      | Except.error _ =>
        { response := { status := 200, received := some true, error := some "Processing error" }
          requests := []
          store := store }
      | Except.ok false =>
        { response := { status := 401, received := none, error := some "Invalid signature" }
          requests := []
          store := store }
      | Except.ok true =>
        let r := dispatchEvent env net body store now
        { response := { status := 200, received := some true, error := none }
          requests := r.1
          store := r.2 }
    else
      let r := dispatchEvent env net body store now
      { response := { status := 200, received := some true, error := none }
        requests := r.1
        store := r.2 }

/-- Cached OAuth2 credentials of one `VivaWalletService` instance:
`accessToken` and `tokenExpiry` (milliseconds since epoch, `none` for
`null`). -/
structure TokenState where
  accessToken : Option String := none
  tokenExpiry : Option Int := none
deriving DecidableEq

/-- Successful body of the `/connect/token` exchange (the fields read by
`getAccessToken`); `expires_in` is in seconds. -/
structure TokenResponse where
  access_token : String
  expires_in : Int
deriving DecidableEq

/-- The guard `this.accessToken && this.tokenExpiry && new Date() < this.tokenExpiry`. -/
def tokenCacheValid (st : TokenState) (now : Int) : Bool :=
  match st.accessToken, st.tokenExpiry with
  | some tok, some exp => tok != "" && decide (now < exp)
  | _, _ => false

/-- `VivaWalletService.getAccessToken`.  `exchange` is the outcome of the
OAuth2 client-credentials POST (performed only on a cache miss); `now` is
the current time in milliseconds.  Returns the token or the propagated
error, the new cache state, and how many network token exchanges were
performed by this call. -/
def getAccessToken (exchange : Except Unit TokenResponse) (now : Int) (st : TokenState) :
    Except Unit String × TokenState × Nat :=
  if tokenCacheValid st now then
    (Except.ok (st.accessToken.getD ""), st, 0)
  else
    match exchange with
    | Except.ok resp =>
      (Except.ok resp.access_token,
       { accessToken := some resp.access_token
         tokenExpiry := some (now + (resp.expires_in - 300) * 1000) },
       1)
    | Except.error e => (Except.error e, st, 1)

/-! ### Concrete fixtures shared by witnesses and counterexamples -/

/-- Concrete network fixture: an injective stand-in for the HMAC hex
digest, constant serializers, and always-successful delivery. -/
def netFix : Network :=
  { hmac := fun s p => "h:" ++ s ++ ":" ++ p
    stringify := fun _ => "PAYLOAD"
    stringifyWebhook := fun _ => "BODY"
    deliverOk := fun _ => true }

/-- Environment with no default callback URL configured. -/
def envFix : Env := { defaultCallbackUrl := "", defaultCallbackSecret := "" }

/-- Environment with a process-wide default callback URL configured. -/
def envDefaultFix : Env :=
  { defaultCallbackUrl := "https://default.example", defaultCallbackSecret := "dsec" }

/-- A registration with a general webhook URL, a signing secret and metadata. -/
def cfgFix : CallbackConfig :=
  { webhookUrl := some "https://u.example"
    secret := some "s3cret"
    metadata := some [("k", "v")] }

/-- A store holding `cfgFix` under order code 111. -/
def storeFix : CallbackStore := registerCallback emptyStore (StrNum.num 111) cfgFix

/-! ### Claims about the token cache -/

/-- C3: if `getToken()` is called (performing a fetch because the cache is
invalid) and called again while the record cached by the first call still
satisfies `now < expiresAt`, the second call returns the cached token with
no network I/O, so exactly one network token exchange happens across the
two calls (the second call's count is 0 for every possible exchange
outcome, which it never consults). -/
theorem getToken_cached_window_single_fetch
    (st0 : TokenState) (resp : TokenResponse) (exchange2 : Except Unit TokenResponse)
    (t0 t1 : Int)
    (h0 : tokenCacheValid st0 t0 = false)
    (htok : resp.access_token ≠ "")
    (h1 : t1 < t0 + (resp.expires_in - 300) * 1000) :
    getAccessToken (Except.ok resp) t0 st0 =
      (Except.ok resp.access_token,
       { accessToken := some resp.access_token
         tokenExpiry := some (t0 + (resp.expires_in - 300) * 1000) }, 1) ∧
    getAccessToken exchange2 t1 (getAccessToken (Except.ok resp) t0 st0).2.1 =
      (Except.ok resp.access_token, (getAccessToken (Except.ok resp) t0 st0).2.1, 0) := by
  have hfirst : getAccessToken (Except.ok resp) t0 st0 =
      (Except.ok resp.access_token,
       { accessToken := some resp.access_token
         tokenExpiry := some (t0 + (resp.expires_in - 300) * 1000) }, 1) := by
    simp [getAccessToken, h0]
  refine ⟨hfirst, ?_⟩
  rw [hfirst]
  simp [getAccessToken, tokenCacheValid, htok, h1]

/-- Witness for C3 at concrete inputs. -/
theorem getToken_cached_window_single_fetch_witness :
    getAccessToken (Except.ok { access_token := "tok", expires_in := 3600 }) 0 { } =
      (Except.ok "tok",
       { accessToken := some "tok", tokenExpiry := some (0 + (3600 - 300) * 1000) }, 1) ∧
    getAccessToken (Except.error ()) 1000
        (getAccessToken (Except.ok { access_token := "tok", expires_in := 3600 }) 0 { }).2.1 =
      (Except.ok "tok",
       (getAccessToken (Except.ok { access_token := "tok", expires_in := 3600 }) 0 { }).2.1,
       0) :=
  getToken_cached_window_single_fetch { } { access_token := "tok", expires_in := 3600 }
    (Except.error ()) 0 1000 (by decide) (by decide) (by decide)

/-- C7: a successful exchange returning `expires_in = E` seconds at fetch
time `t0` stores `expiresAt = t0 + (E - 300)` seconds; from
`t0 + (E - 300)` seconds on the cached record is no longer served and a
further call performs a network exchange. -/
theorem token_expiry_safety_margin
    (st0 : TokenState) (resp : TokenResponse) (exchange2 : Except Unit TokenResponse)
    (t0 t1 : Int)
    (h0 : tokenCacheValid st0 t0 = false)
    (h1 : t0 + (resp.expires_in - 300) * 1000 ≤ t1) :
    (getAccessToken (Except.ok resp) t0 st0).2.1.tokenExpiry =
      some (t0 + (resp.expires_in - 300) * 1000) ∧
    tokenCacheValid (getAccessToken (Except.ok resp) t0 st0).2.1 t1 = false ∧
    (getAccessToken exchange2 t1 (getAccessToken (Except.ok resp) t0 st0).2.1).2.2 = 1 := by
  have hfirst : (getAccessToken (Except.ok resp) t0 st0).2.1 =
      { accessToken := some resp.access_token
        tokenExpiry := some (t0 + (resp.expires_in - 300) * 1000) } := by
    simp [getAccessToken, h0]
  have hinvalid : tokenCacheValid (getAccessToken (Except.ok resp) t0 st0).2.1 t1 = false := by
    rw [hfirst]
    simp [tokenCacheValid, not_lt.mpr h1]
  have hcall : ∀ (ex : Except Unit TokenResponse) (st : TokenState),
      tokenCacheValid st t1 = false → (getAccessToken ex t1 st).2.2 = 1 := by
    intro ex st h
    cases ex <;> simp [getAccessToken, h]
  exact ⟨by rw [hfirst], hinvalid, hcall exchange2 _ hinvalid⟩

/-- Witness for C7 at concrete inputs. -/
theorem token_expiry_safety_margin_witness :
    (getAccessToken (Except.ok { access_token := "tok", expires_in := 3600 }) 0 { }).2.1.tokenExpiry =
      some (0 + (3600 - 300) * 1000) ∧
    tokenCacheValid
      (getAccessToken (Except.ok { access_token := "tok", expires_in := 3600 }) 0 { }).2.1
      (0 + (3600 - 300) * 1000) = false ∧
    (getAccessToken (Except.error ()) (0 + (3600 - 300) * 1000)
      (getAccessToken (Except.ok { access_token := "tok", expires_in := 3600 }) 0 { }).2.1).2.2 = 1 :=
  token_expiry_safety_margin { } { access_token := "tok", expires_in := 3600 }
    (Except.error ()) 0 (0 + (3600 - 300) * 1000) (by decide) (by decide)

/-- C8: a failing token exchange propagates the error and leaves the
cached record (token and expiry, possibly absent) unchanged. -/
theorem token_exchange_failure_preserves_cache
    (st0 : TokenState) (now : Int) :
    (getAccessToken (Except.error ()) now st0).2.1 = st0 ∧
    (tokenCacheValid st0 now = false →
      (getAccessToken (Except.error ()) now st0).1 = Except.error ()) := by
  unfold getAccessToken
  cases h : tokenCacheValid st0 now <;> simp [h]

/-- Witness for C8 at concrete inputs: at time 10 the cached record
(expiry 5) is stale, so the call takes the failing-exchange path — the
error propagates and the old record is untouched. -/
theorem token_exchange_failure_preserves_cache_witness :
    (getAccessToken (Except.error ()) 10 { accessToken := some "old", tokenExpiry := some 5 }).2.1 =
      { accessToken := some "old", tokenExpiry := some 5 } ∧
    (tokenCacheValid { accessToken := some "old", tokenExpiry := some 5 } 10 = false →
      (getAccessToken (Except.error ()) 10
        { accessToken := some "old", tokenExpiry := some 5 }).1 = Except.error ()) :=
  token_exchange_failure_preserves_cache { accessToken := some "old", tokenExpiry := some 5 } 10

/-! ### Claims about the callback lifecycle -/

/-- C2: with a registered callback for an order code, the store entry is
gone after `forwardPaymentSuccess` (whatever the delivery outcomes, which
the quantified `net` ranges over), while `forwardPaymentFailed` leaves the
store untouched and the entry still present and unchanged. -/
theorem success_consumes_failed_retains
    (env : Env) (net : Network) (store : CallbackStore) (oc : StrNum)
    (cfg : CallbackConfig) (data : PayloadData) (raw : Option WebhookPayload) (now : String)
    (hreg : getCallback store oc = some cfg) :
    getCallback (forwardPaymentSuccess env net store oc data raw now).2 oc = none ∧
    (forwardPaymentFailed env net store oc data raw now).2 = store ∧
    getCallback (forwardPaymentFailed env net store oc data raw now).2 oc = some cfg := by
  refine ⟨?_, rfl, hreg⟩
  simp [forwardPaymentSuccess, getCallback, removeCallback, storeGet, storeDelete]

/-- Witness for C2 at concrete inputs. -/
theorem success_consumes_failed_retains_witness :
    getCallback (forwardPaymentSuccess envFix netFix storeFix (StrNum.num 111)
      { } none "ts").2 (StrNum.num 111) = none ∧
    (forwardPaymentFailed envFix netFix storeFix (StrNum.num 111) { } none "ts").2 = storeFix ∧
    getCallback (forwardPaymentFailed envFix netFix storeFix (StrNum.num 111)
      { } none "ts").2 (StrNum.num 111) = some cfgFix :=
  success_consumes_failed_retains envFix netFix storeFix (StrNum.num 111) cfgFix
    { } none "ts" (by decide)

/-- The destination of the request built by `forwardToUrl` is its `url`
argument. -/
theorem forwardToUrl_url (net : Network) (url : String) (payload : WebhookForwardPayload)
    (secret : Option String) : (forwardToUrl net url payload secret).1.url = url := rfl

/-- C1: registering `webhookUrl U`, `secret S`, `metadata M` (no success
URL) for order code 1234567890123456 and then running the
`payment.success` forwarding path produces exactly one outbound POST, to
`U`, whose body's `data.metadata` is `M` and whose `X-Webhook-Signature`
header is the HMAC-SHA256 hex digest, keyed by `S`, of exactly the
serialized body that is sent. -/
theorem registered_success_roundtrip
    (env : Env) (net : Network) (store0 : CallbackStore)
    (U S : String) (M : Metadata) (data : PayloadData)
    (rawPayload : Option WebhookPayload) (now : String)
    (hU : U ≠ "") (hS : S ≠ "") :
    ∃ r, (forwardPaymentSuccess env net
        (registerCallback store0 (StrNum.num 1234567890123456)
          { successUrl := none, failureUrl := none, webhookUrl := some U,
            secret := some S, includeRawPayload := none, metadata := some M })
        (StrNum.num 1234567890123456) data rawPayload now).1 = [r] ∧
      r.url = U ∧
      r.body.data.metadata = some M ∧
      r.bodyString = net.stringify r.body ∧
      r.signature = some (net.hmac S r.bodyString) := by
  have hcfg : getCallback (registerCallback store0 (StrNum.num 1234567890123456)
      { successUrl := none, failureUrl := none, webhookUrl := some U,
        secret := some S, includeRawPayload := none, metadata := some M })
      (StrNum.num 1234567890123456) =
      some { successUrl := none, failureUrl := none, webhookUrl := some U,
             secret := some S, includeRawPayload := none, metadata := some M } := by
    simp [getCallback, registerCallback, storeGet, storeSet]
  have hUb : (U != "") = true := by simpa using hU
  have hSb : (S != "") = true := by simpa using hS
  refine ⟨(forwardToUrl net U
      { event := .paymentSuccess
        timestamp := now
        data := { data with orderCode := some (StrNum.num 1234567890123456)
                            metadata := some M }
        raw := none } (some S)).1, ?_, rfl, rfl, rfl, ?_⟩
  · simp only [forwardPaymentSuccess, hcfg, Option.some_bind]
    simp [postIfTruthy, truthyStr, truthyBool, hUb]
  · simp [forwardToUrl, generateSignature, hSb]

/-- Witness for C1 at concrete inputs (a default callback URL is even
configured, and still only the single POST to `U` happens). -/
theorem registered_success_roundtrip_witness :
    ∃ r, (forwardPaymentSuccess envDefaultFix netFix
        (registerCallback emptyStore (StrNum.num 1234567890123456)
          { successUrl := none, failureUrl := none, webhookUrl := some "https://u.example",
            secret := some "s3cret", includeRawPayload := none, metadata := some [("k", "v")] })
        (StrNum.num 1234567890123456) { } none "ts").1 = [r] ∧
      r.url = "https://u.example" ∧
      r.body.data.metadata = some [("k", "v")] ∧
      r.bodyString = netFix.stringify r.body ∧
      r.signature = some (netFix.hmac "s3cret" r.bodyString) :=
  registered_success_roundtrip envDefaultFix netFix emptyStore "https://u.example" "s3cret"
    [("k", "v")] { } none "ts" (by decide) (by decide)

/-- C5 counterexample: with `webhookUrl` registered for order 111 AND a
process-wide default callback URL configured, the refund path issues two
POSTs — one to the registered URL and one to the default URL — so the
default URL is used even though a per-order URL exists. -/
theorem refunded_posts_default_despite_registered_url :
    ((forwardPaymentRefunded envDefaultFix netFix storeFix (StrNum.num 111)
        { } none "ts").1.map (fun r => r.url)) =
      ["https://u.example", "https://default.example"] := by decide

/-- C5 amended: `payment.refunded` delivers to the registered
`webhookUrl` when present and truthy; in addition, whenever a default
callback URL is configured, a POST is always also made to it — regardless
of per-order registration.  The store is not mutated. -/
theorem refunded_urls_characterization
    (env : Env) (net : Network) (store : CallbackStore) (oc : StrNum)
    (data : PayloadData) (raw : Option WebhookPayload) (now : String) :
    ((forwardPaymentRefunded env net store oc data raw now).1.map (fun r => r.url)) =
      (match (getCallback store oc).bind (fun c => c.webhookUrl) with
        | some u => if u != "" then [u] else []
        | none => []) ++
      (if env.defaultCallbackUrl != "" then [env.defaultCallbackUrl] else []) ∧
    (forwardPaymentRefunded env net store oc data raw now).2 = store := by
  refine ⟨?_, rfl⟩
  simp only [forwardPaymentRefunded, List.map_append]
  congr 1
  · cases h : (getCallback store oc).bind (fun c => c.webhookUrl) with
    | none => simp [postIfTruthy, h]
    | some u =>
      by_cases hu : u = ""
      · simp [postIfTruthy, h, hu]
      · simp [postIfTruthy, h, hu, forwardToUrl_url]
  · by_cases hd : env.defaultCallbackUrl = ""
    · simp [hd]
    · simp [hd, forwardToUrl_url]

deriving instance DecidableEq for Except

/-- A merchant with a configured webhook secret. -/
def merchantFix : MerchantConfig :=
  { merchantKey := "m1", apiKey := "ak", webhookSecret := "sec" }

/-- A registry resolving only the key `m1`. -/
def resolveFix : String → Option MerchantConfig :=
  fun k => if k = "m1" then some merchantFix else none

/-- An inbound payment-created (1796) webhook for order 555. -/
def bodySuccessFix : WebhookPayload :=
  { EventTypeId := 1796, EventData := { OrderCode := 555 } }

/-- A network whose HMAC digest is a constant 64-character hex string. -/
def net64Fix : Network :=
  { hmac := fun _ _ => "0123456789abcdef0123456789abcdef0123456789abcdef0123456789abcdef"
    stringify := fun _ => "PAYLOAD"
    stringifyWebhook := fun _ => "BODY"
    deliverOk := fun _ => true }

/-- Helper: with no registration for the order and no default callback
URL, `forwardPaymentSuccess` issues no request. -/
theorem forwardPaymentSuccess_unregistered_no_default
    (env : Env) (net : Network) (store : CallbackStore) (oc : StrNum)
    (data : PayloadData) (raw : Option WebhookPayload) (now : String)
    (hc : getCallback store oc = none) (hd : env.defaultCallbackUrl = "") :
    (forwardPaymentSuccess env net store oc data raw now).1 = [] := by
  simp [forwardPaymentSuccess, hc, postIfTruthy, hd, truthyStr]

/-- Helper: with no registration for the order and no default callback
URL, `forwardPaymentFailed` issues no request. -/
theorem forwardPaymentFailed_unregistered_no_default
    (env : Env) (net : Network) (store : CallbackStore) (oc : StrNum)
    (data : PayloadData) (raw : Option WebhookPayload) (now : String)
    (hc : getCallback store oc = none) (hd : env.defaultCallbackUrl = "") :
    (forwardPaymentFailed env net store oc data raw now).1 = [] := by
  simp [forwardPaymentFailed, hc, postIfTruthy, hd, truthyStr]

/-- Helper: with no registration for the order and no default callback
URL, `forwardPaymentRefunded` issues no request. -/
theorem forwardPaymentRefunded_unregistered_no_default
    (env : Env) (net : Network) (store : CallbackStore) (oc : StrNum)
    (data : PayloadData) (raw : Option WebhookPayload) (now : String)
    (hc : getCallback store oc = none) (hd : env.defaultCallbackUrl = "") :
    (forwardPaymentRefunded env net store oc data raw now).1 = [] := by
  simp [forwardPaymentRefunded, hc, postIfTruthy, hd, truthyStr]

/-- C4: the per-tenant webhook POST answers 404 (and forwards nothing)
when the merchant key does not resolve; 401 (and forwards nothing) when a
secret is configured, a signature header is present, and verification
returns false; and 200 with `received: true` in every other case,
including the processing-error path. -/
theorem webhook_post_status_spec
    (env : Env) (net : Network) (resolveMerchant : String → Option MerchantConfig)
    (merchantKey : String) (sigHeader : Option String) (body : WebhookPayload)
    (store : CallbackStore) (now : String) :
    (resolveMerchant merchantKey = none →
      (webhookPostHandler env net resolveMerchant merchantKey sigHeader body store now).response =
        { status := 404, received := none, error := some "Merchant not found" } ∧
      (webhookPostHandler env net resolveMerchant merchantKey sigHeader body store now).requests = []) ∧
    (∀ m, resolveMerchant merchantKey = some m →
      m.webhookSecret ≠ "" →
      truthyStr sigHeader = true →
      verifySignature net.hmac (net.stringifyWebhook body) (sigHeader.getD "") m.webhookSecret =
        Except.ok false →
      (webhookPostHandler env net resolveMerchant merchantKey sigHeader body store now).response.status = 401 ∧
      (webhookPostHandler env net resolveMerchant merchantKey sigHeader body store now).requests = []) ∧
    (∀ m, resolveMerchant merchantKey = some m →
      ¬(m.webhookSecret ≠ "" ∧ truthyStr sigHeader = true ∧
        verifySignature net.hmac (net.stringifyWebhook body) (sigHeader.getD "") m.webhookSecret =
          Except.ok false) →
      (webhookPostHandler env net resolveMerchant merchantKey sigHeader body store now).response.status = 200 ∧
      (webhookPostHandler env net resolveMerchant merchantKey sigHeader body store now).response.received = some true) := by
  refine ⟨?_, ?_, ?_⟩
  · intro h
    simp [webhookPostHandler, h]
  · intro m hm h1 h2 hv
    have h1b : (m.webhookSecret != "") = true := by simpa using h1
    simp [webhookPostHandler, hm, h1b, h2, hv]
  · intro m hm hneg
    cases hcond : (m.webhookSecret != "" && truthyStr sigHeader) with
    | false => simp [webhookPostHandler, hm, hcond]
    | true =>
      rw [Bool.and_eq_true] at hcond
      obtain ⟨h1b, h2b⟩ := hcond
      have hcond : (m.webhookSecret != "" && truthyStr sigHeader) = true := by
        rw [Bool.and_eq_true]; exact ⟨h1b, h2b⟩
      cases hv : verifySignature net.hmac (net.stringifyWebhook body) (sigHeader.getD "")
          m.webhookSecret with
      | error e => simp [webhookPostHandler, hm, hcond, hv]
      | ok b =>
        cases b with
        | true => simp [webhookPostHandler, hm, hcond, hv]
        | false => exact absurd ⟨bne_iff_ne.mp h1b, h2b, hv⟩ hneg

/-- Witness for C4: a present but wrong signature of the right length is
rejected with 401 and nothing is forwarded. -/
theorem webhook_post_status_spec_witness :
    (webhookPostHandler envFix netFix resolveFix "m1" (some "x:sec:BODY")
      bodySuccessFix emptyStore "ts").response.status = 401 ∧
    (webhookPostHandler envFix netFix resolveFix "m1" (some "x:sec:BODY")
      bodySuccessFix emptyStore "ts").requests = [] :=
  (webhook_post_status_spec envFix netFix resolveFix "m1" (some "x:sec:BODY")
    bodySuccessFix emptyStore "ts").2.1 merchantFix rfl (by decide) rfl (by decide)

/-- C6 counterexample: a correctly signed webhook for an order code with
no CallbackStore entry is answered 200, yet one outbound POST is issued —
to the configured default callback URL — so the event is not dropped with
zero outbound POSTs. -/
theorem unregistered_order_forwarded_to_default :
    getCallback emptyStore (StrNum.num 555) = none ∧
    verifySignature netFix.hmac (netFix.stringifyWebhook bodySuccessFix) "h:sec:BODY" "sec" =
      Except.ok true ∧
    (webhookPostHandler envDefaultFix netFix resolveFix "m1" (some "h:sec:BODY")
      bodySuccessFix emptyStore "ts").response.status = 200 ∧
    ((webhookPostHandler envDefaultFix netFix resolveFix "m1" (some "h:sec:BODY")
      bodySuccessFix emptyStore "ts").requests.map (fun r => r.url)) =
      ["https://default.example"] := by decide

/-- C6 amended: a verified (or verification-skipped) inbound webhook for
an order code with no CallbackStore entry is answered
`200 {received: true}` and issues zero outbound POSTs, provided no
process-wide default callback URL is configured. -/
theorem unregistered_order_dropped_without_default
    (env : Env) (net : Network) (resolveMerchant : String → Option MerchantConfig)
    (merchantKey : String) (sigHeader : Option String) (body : WebhookPayload)
    (store : CallbackStore) (now : String) (m : MerchantConfig)
    (hm : resolveMerchant merchantKey = some m)
    (hdef : env.defaultCallbackUrl = "")
    (hstore : getCallback store (StrNum.num body.EventData.OrderCode) = none)
    (hver : m.webhookSecret ≠ "" → truthyStr sigHeader = true →
      verifySignature net.hmac (net.stringifyWebhook body) (sigHeader.getD "") m.webhookSecret =
        Except.ok true) :
    (webhookPostHandler env net resolveMerchant merchantKey sigHeader body store now).response =
      { status := 200, received := some true, error := none } ∧
    (webhookPostHandler env net resolveMerchant merchantKey sigHeader body store now).requests = [] := by
  have hdisp : (dispatchEvent env net body store now).1 = [] := by
    unfold dispatchEvent
    split_ifs
    · exact forwardPaymentSuccess_unregistered_no_default env net store _ _ _ now hstore hdef
    · exact forwardPaymentFailed_unregistered_no_default env net store _ _ _ now hstore hdef
    · exact forwardPaymentRefunded_unregistered_no_default env net store _ _ _ now hstore hdef
    · rfl
  cases hcond : (m.webhookSecret != "" && truthyStr sigHeader) with
  | false => simp [webhookPostHandler, hm, hcond, hdisp]
  | true =>
    have hsplit := hcond
    rw [Bool.and_eq_true] at hsplit
    obtain ⟨h1b, h2b⟩ := hsplit
    simp [webhookPostHandler, hm, hcond, hver (bne_iff_ne.mp h1b) h2b, hdisp]

/-- Witness for the amended C6 at concrete inputs. -/
theorem unregistered_order_dropped_without_default_witness :
    (webhookPostHandler envFix netFix resolveFix "m1" (some "h:sec:BODY")
      bodySuccessFix emptyStore "ts").response =
      { status := 200, received := some true, error := none } ∧
    (webhookPostHandler envFix netFix resolveFix "m1" (some "h:sec:BODY")
      bodySuccessFix emptyStore "ts").requests = [] :=
  unregistered_order_dropped_without_default envFix netFix resolveFix "m1"
    (some "h:sec:BODY") bodySuccessFix emptyStore "ts" merchantFix rfl rfl rfl
    (fun _ _ => rfl)

/-- C9: when the merchant resolves but the `viva-signature-256` header is
absent or empty, verification is skipped entirely and the event is
dispatched exactly as a verified one would be (the handler's result is
the plain dispatch result); and a 401 response is reachable only when the
merchant has a non-empty secret AND a truthy signature header was sent. -/
theorem missing_signature_bypasses_verification
    (env : Env) (net : Network) (resolveMerchant : String → Option MerchantConfig)
    (merchantKey : String) (sigHeader : Option String) (body : WebhookPayload)
    (store : CallbackStore) (now : String) (m : MerchantConfig)
    (hm : resolveMerchant merchantKey = some m) :
    (truthyStr sigHeader = false →
      webhookPostHandler env net resolveMerchant merchantKey sigHeader body store now =
        { response := { status := 200, received := some true, error := none }
          requests := (dispatchEvent env net body store now).1
          store := (dispatchEvent env net body store now).2 }) ∧
    ((webhookPostHandler env net resolveMerchant merchantKey sigHeader body store now).response.status = 401 →
      m.webhookSecret ≠ "" ∧ truthyStr sigHeader = true) := by
  constructor
  · intro h
    simp [webhookPostHandler, hm, h]
  · intro h401
    cases hcond : (m.webhookSecret != "" && truthyStr sigHeader) with
    | true =>
      rw [Bool.and_eq_true] at hcond
      exact ⟨bne_iff_ne.mp hcond.1, hcond.2⟩
    | false =>
      exfalso
      rw [webhookPostHandler, hm] at h401
      simp only [hcond, Bool.false_eq_true, if_false] at h401
      simp at h401

/-- Witness for C9: with no signature header at all (and a merchant that
does have a secret), the handler result is the plain dispatch result. -/
theorem missing_signature_bypasses_verification_witness :
    (truthyStr none = false →
      webhookPostHandler envFix netFix resolveFix "m1" none bodySuccessFix emptyStore "ts" =
        { response := { status := 200, received := some true, error := none }
          requests := (dispatchEvent envFix netFix bodySuccessFix emptyStore "ts").1
          store := (dispatchEvent envFix netFix bodySuccessFix emptyStore "ts").2 }) ∧
    ((webhookPostHandler envFix netFix resolveFix "m1" none bodySuccessFix
        emptyStore "ts").response.status = 401 →
      merchantFix.webhookSecret ≠ "" ∧ truthyStr none = true) :=
  missing_signature_bypasses_verification envFix netFix resolveFix "m1" none
    bodySuccessFix emptyStore "ts" merchantFix rfl

/-- C10: with a non-empty secret and a present (non-empty) signature
header whose UTF-8 byte length differs from the 64-byte hex digest the
HMAC produces, `verifySignature` throws (`crypto.timingSafeEqual` rejects
buffers of unequal length), so the route's catch branch answers
`200 {received: true, error: 'Processing error'}` — not 401 — and
nothing is forwarded. -/
theorem sig_length_mismatch_answers_200
    (env : Env) (net : Network) (resolveMerchant : String → Option MerchantConfig)
    (merchantKey : String) (sig : String) (body : WebhookPayload)
    (store : CallbackStore) (now : String) (m : MerchantConfig)
    (hm : resolveMerchant merchantKey = some m)
    (hsec : m.webhookSecret ≠ "")
    (hsig : sig ≠ "")
    (hdig : (net.hmac m.webhookSecret (net.stringifyWebhook body)).utf8ByteSize = 64)
    (hlen : sig.utf8ByteSize ≠ 64) :
    verifySignature net.hmac (net.stringifyWebhook body) sig m.webhookSecret =
      Except.error () ∧
    (webhookPostHandler env net resolveMerchant merchantKey (some sig) body store now).response =
      { status := 200, received := some true, error := some "Processing error" } ∧
    (webhookPostHandler env net resolveMerchant merchantKey (some sig) body store now).requests = [] := by
  have hv : verifySignature net.hmac (net.stringifyWebhook body) sig m.webhookSecret =
      Except.error () := by
    unfold verifySignature
    rw [if_neg hsec, if_neg]
    rw [hdig]
    exact hlen
  have hcond : (m.webhookSecret != "" && truthyStr (some sig)) = true := by
    rw [Bool.and_eq_true]
    exact ⟨bne_iff_ne.mpr hsec, bne_iff_ne.mpr hsig⟩
  refine ⟨hv, ?_, ?_⟩ <;> simp [webhookPostHandler, hm, hcond, hv]

/-- Witness for C10: a 2-byte signature header against a 64-byte digest. -/
theorem sig_length_mismatch_answers_200_witness :
    verifySignature net64Fix.hmac (net64Fix.stringifyWebhook bodySuccessFix) "ab"
      merchantFix.webhookSecret = Except.error () ∧
    (webhookPostHandler envFix net64Fix resolveFix "m1" (some "ab") bodySuccessFix
      emptyStore "ts").response =
      { status := 200, received := some true, error := some "Processing error" } ∧
    (webhookPostHandler envFix net64Fix resolveFix "m1" (some "ab") bodySuccessFix
      emptyStore "ts").requests = [] :=
  sig_length_mismatch_answers_200 envFix net64Fix resolveFix "m1" "ab" bodySuccessFix
    emptyStore "ts" merchantFix rfl (by decide) (by decide) (by decide) (by decide)

end OnlinePayments
